import Mathlib

/-!
Shallow embedding of the Distributed-Task-Scheduler core
(`internal/queue/queue.go`, the `db` package, `internal/server/server.go`,
`internal/worker/worker.go`).

Redis lists are modelled as Lean lists whose index 0 is the Redis head
(left end): `RPUSH` appends at the tail (`l ++ [x]`), `LPUSH` prepends at
the head (`x :: l`), `BRPOPLPUSH src dst` removes the tail element of
`src` and prepends it to `dst`, `LREM key 1 v` removes the first
occurrence of `v` starting from the head.

SQL tables are modelled as lists of rows; timestamps are `Int` seconds.
Infrastructure failures that the Go code checks (a failed `Exec`, a
failed queue push) are injected as explicit `Bool` parameters; a `Bool`
result component models the Go `error` value (`true` = `nil` error).
-/

namespace Scheduler

/-- A row of the `tasks` table (schema from `initDB` in the db package:
id, name, args, command, execute_at, status, retries, priority, output,
created_at, updated_at, plus the added columns max_retries, cron_expr,
next_run_at).  `args` (JSONB, always NULL in the core) is omitted. -/
structure TaskRow where
  id : String
  name : Option String
  command : Option String
  execute_at : Option Int
  status : String
  retries : Int
  priority : Int
  output : Option String
  created_at : Int
  updated_at : Int
  max_retries : Int
  cron_expr : Option String
  next_run_at : Option Int
deriving DecidableEq

/-- A row of the `task_history` table (the BIGSERIAL id and the
defaulted created_at column are omitted). -/
structure HistoryRow where
  task_id : String
  status : String
  start_time : Option Int
  end_time : Option Int
  result : Option String
deriving DecidableEq

/-- The relational store: the `tasks` table and the `task_history`
table (`task_history.task_id` carries a FOREIGN KEY to `tasks.id`). -/
structure Store where
  tasks : List TaskRow
  history : List HistoryRow
deriving DecidableEq

/-- The three Redis lists `pending_jobs`, `processing_jobs`,
`dlq_tasks` (queue.go constants). -/
structure QueueState where
  pending : List String
  processing : List String
  dlq : List String
deriving DecidableEq

/-- Combined system state: the job store plus the dispatch queue. -/
structure SysState where
  store : Store
  queue : QueueState
deriving DecidableEq

/-! ### Dispatch queue (`internal/queue/queue.go`) -/

/-- `LREM key 1 v`: remove the first occurrence of `v` from the head. -/
def lrem1 (l : List String) (v : String) : List String :=
  match l with
  | [] => []
  | x :: xs => if x = v then xs else x :: lrem1 xs v

/-- `PushJob` (queue.go:79-103): `RPUSH pending_jobs jobId` — append
the id at the tail of the pending list. -/
def pushJob (q : QueueState) (jobId : String) : QueueState :=
  { q with pending := q.pending ++ [jobId] }

/-- `PopJob` (queue.go:105-134): `BRPOPLPUSH pending_jobs
processing_jobs` — atomically remove the TAIL element of pending and
prepend it at the HEAD of processing; `redis.Nil` on an empty pending
list becomes `ErrQueueTimeout`, modelled as `none`. -/
def popJob (q : QueueState) : Option String × QueueState :=
  match q.pending.getLast? with
  | none => (none, q)
  | some jobId =>
      (some jobId,
       { q with pending := q.pending.dropLast,
                processing := jobId :: q.processing })

/-- `AckProcessing` (queue.go:143-150): `LREM processing_jobs 1 jobId`. -/
def ackProcessing (q : QueueState) (jobId : String) : QueueState :=
  { q with processing := lrem1 q.processing jobId }

/-- `RequeueFromProcessing` (queue.go:152-161): `LREM processing_jobs
1 jobId` then `RPUSH pending_jobs jobId`. -/
def requeueFromProcessing (q : QueueState) (jobId : String) : QueueState :=
  { q with processing := lrem1 q.processing jobId,
           pending := q.pending ++ [jobId] }

/-- `MoveToDLQ` (queue.go:163-172): `LREM processing_jobs 1 jobId`
then `RPUSH dlq_tasks jobId`. -/
def moveToDLQ (q : QueueState) (jobId : String) : QueueState :=
  { q with processing := lrem1 q.processing jobId,
           dlq := q.dlq ++ [jobId] }

/-! ### Job store (the `db` package) -/

/-- `nullableString` (db package): the empty string maps to SQL NULL. -/
def nullableString (s : String) : Option String :=
  if s = "" then none else some s

/-- `CreateJob`: `INSERT INTO tasks (id, name, args, command,
execute_at, status, retries, priority, output, created_at, updated_at)
VALUES (id, 'shell', NULL, command, NULL, 'PENDING', 0, 0, NULL, now,
now)`; the primary key on `id` makes the insert fail when a row with
that id already exists.  The new columns take their schema defaults
(`max_retries` 3, `cron_expr` NULL, `next_run_at` NULL). -/
def CreateJob (st : Store) (id command : String) (now : Int) : Store × Bool :=
  if st.tasks.any (fun r => r.id == id) then (st, false)
  else
    ({ st with tasks := st.tasks ++
        [{ id := id, name := some "shell", command := some command,
           execute_at := none, status := "PENDING", retries := 0,
           priority := 0, output := none, created_at := now,
           updated_at := now, max_retries := 3, cron_expr := none,
           next_run_at := none }] },
     true)

/-- The `UPDATE tasks SET status, output, updated_at WHERE id = $4`
statement of `UpdateJobStatus`: every row whose id matches (zero or
one, by the primary key) is rewritten; an absent id matches no row and
the statement still succeeds. -/
def sqlUpdateTasksStatus (ts : List TaskRow) (id status : String)
    (output : Option String) (now : Int) : List TaskRow :=
  ts.map (fun r =>
    if r.id == id then { r with status := status, output := output, updated_at := now }
    else r)

/-- The history row built by `UpdateJobStatus`: `start_time = now`
when the status is RUNNING, `end_time = now` when it is SUCCEEDED or
FAILED, `result = nullableString output`. -/
def historyRowFor (id status output : String) (now : Int) : HistoryRow :=
  { task_id := id, status := status,
    start_time := if status == "RUNNING" then some now else none,
    end_time := if status == "SUCCEEDED" || status == "FAILED" then some now else none,
    result := nullableString output }

/-- `INSERT INTO task_history ...`: the FOREIGN KEY `task_id
REFERENCES tasks(id)` makes the insert fail (leaving the table
unchanged) when no task row with that id exists. -/
def insertHistory (st : Store) (h : HistoryRow) : Store :=
  if st.tasks.any (fun r => r.id == h.task_id) then
    { st with history := st.history ++ [h] }
  else st

/-- `UpdateJobStatus` (db package): run the UPDATE on the task row
(`updateOk` injects an infrastructure failure of that Exec, which is
returned); then attempt the history insert (`historyOk` injects an
infrastructure failure of that Exec) with its error discarded (`_, _ =`),
and return nil.  The `Bool` result is `true` when the Go error is nil. -/
def UpdateJobStatus (st : Store) (id status output : String) (now : Int)
    (updateOk historyOk : Bool) : Store × Bool :=
  if !updateOk then (st, false)
  else
    let st1 : Store :=
      { st with tasks := sqlUpdateTasksStatus st.tasks id status (nullableString output) now }
    let st2 := if historyOk then insertHistory st1 (historyRowFor id status output now) else st1
    (st2, true)

/-- `GetJob`: `SELECT ... FROM tasks WHERE id = $1`, `none` when no
row exists (the Go code surfaces that as an error). -/
def GetJob (st : Store) (id : String) : Option TaskRow :=
  st.tasks.find? (fun r => r.id == id)

/-- `IncrementRetry` (db package): `UPDATE tasks SET retries = retries
+ 1, updated_at = now WHERE id = $1 RETURNING retries, max_retries`;
an absent id returns no row, surfaced as an error (`none`). -/
def IncrementRetry (st : Store) (id : String) (now : Int) :
    Store × Option (Int × Int) :=
  match GetJob st id with
  | none => (st, none)
  | some r =>
      ({ st with tasks := st.tasks.map (fun x =>
          if x.id == id then { x with retries := x.retries + 1, updated_at := now } else x) },
       some (r.retries + 1, r.max_retries))

/-- `ResetToPending` (db package): `UPDATE tasks SET status='PENDING',
output=$2, updated_at=$3 WHERE id=$1`; an absent id matches no row and
the call still returns nil. -/
def ResetToPending (st : Store) (id output : String) (now : Int) : Store × Bool :=
  ({ st with tasks := st.tasks.map (fun r =>
      if r.id == id then
        { r with status := "PENDING", output := nullableString output, updated_at := now }
      else r) },
   true)

/-- The `execute_at <= now()` (and `next_run_at <= now()`) SQL
comparison: NULL compares to false. -/
def sqlLeNow (now : Int) : Option Int → Bool
  | some t => decide (t ≤ now)
  | none => false

/-- The WHERE clause of `GetDueTaskIDs`: `status='PENDING' AND
(execute_at IS NULL OR execute_at <= now() OR (next_run_at IS NOT NULL
AND next_run_at <= now()))`. -/
def dueRow (now : Int) (r : TaskRow) : Bool :=
  r.status == "PENDING" &&
    (r.execute_at.isNone || sqlLeNow now r.execute_at || sqlLeNow now r.next_run_at)

/-- The comparison of `ORDER BY updated_at ASC`. -/
def updLE (a b : TaskRow) : Prop := a.updated_at ≤ b.updated_at

instance : DecidableRel updLE := fun a b => Int.decLe a.updated_at b.updated_at

instance : IsTotal TaskRow updLE := ⟨fun a b => Int.le_total a.updated_at b.updated_at⟩

instance : IsTrans TaskRow updLE := ⟨fun _ _ _ h h' => le_trans h h'⟩

/-- The due rows of `GetDueTaskIDs` after filtering and ordering by
`updated_at` ascending (before LIMIT and the id projection). -/
def dueSortedRows (st : Store) (now : Int) : List TaskRow :=
  List.insertionSort updLE (st.tasks.filter (dueRow now))

/-- `GetDueTaskIDs` (db package): `SELECT id FROM tasks WHERE
status='PENDING' AND (execute_at IS NULL OR execute_at <= now() OR
(next_run_at IS NOT NULL AND next_run_at <= now())) ORDER BY
updated_at ASC LIMIT $1`. -/
def GetDueTaskIDs (st : Store) (now : Int) (limit : Nat) : List String :=
  (((dueSortedRows st now).map (fun r => r.id)).take limit)

/-- `UpdateNextRun` (db package): `UPDATE tasks SET next_run_at=$2,
updated_at=$3 WHERE id=$1`. -/
def UpdateNextRun (st : Store) (id : String) (t now : Int) : Store :=
  { st with tasks := st.tasks.map (fun r =>
      if r.id == id then { r with next_run_at := some t, updated_at := now } else r) }

/-- `ClearExecuteAt` (db package): `UPDATE tasks SET execute_at=NULL,
updated_at=$2 WHERE id=$1`. -/
def ClearExecuteAt (st : Store) (id : String) (now : Int) : Store :=
  { st with tasks := st.tasks.map (fun r =>
      if r.id == id then { r with execute_at := none, updated_at := now } else r) }

/-- `MarkStaleRunningJobsFailed` (db package): every RUNNING row with
`updated_at < now - cutoffSeconds` becomes FAILED with the literal
characters backslash-n (the Go SQL string carries `\n` inside a
single-quoted standard-conforming literal) and the staleness note
appended to `COALESCE(output,'')`; returns the affected row count. -/
def MarkStaleRunningJobsFailed (st : Store) (cutoffSeconds now : Int) : Store × Nat :=
  let cutoff := now - cutoffSeconds
  let hit := fun (r : TaskRow) => r.status == "RUNNING" && decide (r.updated_at < cutoff)
  ({ st with tasks := st.tasks.map (fun r =>
      if hit r then
        { r with status := "FAILED",
                 output := some ((r.output.getD "") ++ "\\n[auto] marked failed due to staleness"),
                 updated_at := now }
      else r) },
   (st.tasks.filter hit).length)

/-! ### Submission gateway (`internal/server/server.go`) -/

/-- Go `strings.TrimSpace`: strip leading and trailing whitespace. -/
def trimSpace (s : String) : String :=
  ⟨((s.data.dropWhile Char.isWhitespace).reverse.dropWhile Char.isWhitespace).reverse⟩

/-- The gRPC `JobResponse` message. -/
structure JobResponse where
  job_id : String
  success : Bool
  message : String
deriving DecidableEq

/-- The gRPC `JobStatus` message. -/
structure JobStatusMsg where
  id : String
  status : String
  output : String
  created_at : Int
  updated_at : Int
deriving DecidableEq

/-- `SubmitJob` (server.go:96-144).  `genId` stands for the fresh
UUID used when the caller supplied no id; `pushOk` injects a failure
of the Redis push.  Result: new state, the response, and `true` when
the Go error is nil.  On a push failure the job is marked FAILED with
the diagnostic output (that update's own error being only logged) and
the row is kept. -/
def SubmitJob (s : SysState) (reqId command genId : String) (now : Int)
    (pushOk historyOk : Bool) : SysState × JobResponse × Bool :=
  if trimSpace command = "" then
    (s, { job_id := "", success := false, message := "Job command cannot be empty" }, false)
  else
    let id := if reqId = "" then genId else reqId
    match CreateJob s.store id command now with
    | (_, false) =>
        (s, { job_id := "", success := false, message := "Failed to create job in database" },
         false)
    | (st, true) =>
        if pushOk then
          ({ store := st, queue := pushJob s.queue id },
           { job_id := id, success := true, message := "Job submitted successfully" }, true)
        else
          let st2 := (UpdateJobStatus st id "FAILED"
            "Failed to add job to processing queue" now true historyOk).1
          ({ store := st2, queue := s.queue },
           { job_id := id, success := false, message := "Failed to queue job for processing" },
           false)

/-- `GetJobStatus` (server.go:146-177): reject a blank id, look the
row up, map a NULL output to the empty string. -/
def GetJobStatus (st : Store) (jobId : String) : Except String JobStatusMsg :=
  if trimSpace jobId = "" then .error "job ID cannot be empty"
  else
    match GetJob st jobId with
    | none => .error "job not found"
    | some job =>
        .ok { id := job.id, status := job.status, output := job.output.getD "",
              created_at := job.created_at, updated_at := job.updated_at }

/-! ### Worker (`internal/worker/worker.go`, `processNextJob`) -/

/-- `processNextJob` (worker.go:192-278), one pass with the pop and
the database reachable: pop a job (timeout when pending is empty);
fetch the row (an absent row takes the give-up branch, writing FAILED
and returning an error without an Ack); write RUNNING with an empty
output; run the command (`execOk` = exit status zero, `cancelled` =
the context fired during a failing run, `execOutput` the combined
output, `errMsg` the Go error text); write the final status.  The
function never touches the processing, pending or dlq lists after the
pop and never calls IncrementRetry, ResetToPending,
RequeueFromProcessing, AckProcessing or MoveToDLQ. -/
def processNextJob (s : SysState) (cancelled execOk : Bool)
    (execOutput errMsg : String) (now : Int) (historyOk : Bool) :
    SysState × Bool :=
  match popJob s.queue with
  | (none, q) => ({ store := s.store, queue := q }, false)
  | (some jobId, q) =>
      match GetJob s.store jobId with
      | none =>
          let st := (UpdateJobStatus s.store jobId "FAILED"
            ("Failed to retrieve job details: " ++ errMsg) now true historyOk).1
          ({ store := st, queue := q }, false)
      | some _ =>
          let st1 := (UpdateJobStatus s.store jobId "RUNNING" "" now true historyOk).1
          let status := if execOk then "SUCCEEDED" else "FAILED"
          let outputStr :=
            if execOk then execOutput
            else if cancelled then "Job cancelled: " ++ execOutput
            else "Error: " ++ errMsg ++ "\nOutput: " ++ execOutput
          let st2 := (UpdateJobStatus st1 jobId status outputStr now true historyOk).1
          ({ store := st2, queue := q }, true)

/-! ### Leader maintenance (`server.go StartLeaderLoops`) -/

/-- Modelled from the spec: the external cron library (robfig/cron,
outside this repository) parses the expression and yields the next
firing instant strictly after the given time.  Only the every-minute
expression used by the repository's own demo (`*/1 * * * *`) is
modelled: its next firing after `t` is the next whole minute strictly
after `t`.  Every other expression is treated as a parse failure,
which `StartLeaderLoops` skips. -/
def cronNext : String → Int → Option Int
  | "*/1 * * * *", t => some (60 * (t / 60 + 1))
  | _, _ => none

/-- The per-id body of the leader enqueue loop (server.go:77-91):
push the id, clear `execute_at`, and when the row carries a parseable
`cron_expr` store the schedule's next firing after the current time
into `next_run_at`. -/
def leaderProcessId (s : SysState) (now : Int) (id : String) : SysState :=
  let q := pushJob s.queue id
  let st := ClearExecuteAt s.store id now
  let st :=
    match GetJob st id with
    | some job =>
        match job.cron_expr with
        | some e =>
            match cronNext e now with
            | some nxt => UpdateNextRun st id nxt now
            | none => st
        | none => st
    | none => st
  { store := st, queue := q }

/-- One tick of `StartLeaderLoops` (server.go:64-91):
`MarkStaleRunningJobsFailed 600`, then `GetDueTaskIDs 100` and the
per-id enqueue body for each returned id. -/
def leaderTick (s : SysState) (now : Int) : SysState :=
  let st := (MarkStaleRunningJobsFailed s.store 600 now).1
  let ids := GetDueTaskIDs st now 100
  ids.foldl (fun acc id => leaderProcessId acc now id) { store := st, queue := s.queue }

/-! ### Concrete fixtures -/

/-- A freshly submitted task row (the shape `CreateJob` writes) with
the given id and command. -/
def sampleJob (id command : String) : TaskRow :=
  { id := id, name := some "shell", command := some command,
    execute_at := none, status := "PENDING", retries := 0, priority := 0,
    output := none, created_at := 0, updated_at := 0, max_retries := 3,
    cron_expr := none, next_run_at := none }

/-- A recurring (cron) task row as the repository's README inserts it:
PENDING, every-minute expression, a stored `next_run_at`. -/
def sampleCronJob (nextRun : Int) : TaskRow :=
  { sampleJob "c1" "echo cron-run" with
      name := some "cron", cron_expr := some "*/1 * * * *",
      next_run_at := some nextRun }

/-- System state holding exactly one task row whose id sits alone in
the pending list. -/
def oneJobState (r : TaskRow) : SysState :=
  { store := { tasks := [r], history := [] },
    queue := { pending := [r.id], processing := [], dlq := [] } }

/-- System state holding one recurring job (stored `next_run_at` =
1000) and an empty queue. -/
def cronState : SysState :=
  { store := { tasks := [sampleCronJob 1000], history := [] },
    queue := { pending := [], processing := [], dlq := [] } }

end Scheduler

namespace Scheduler

/-! ### Helper lemmas -/

/-- `find?` by id commutes with mapping an id-preserving row update. -/
theorem find?_id_map (l : List TaskRow) (id : String) (u : TaskRow → TaskRow)
    (h : ∀ r, (u r).id = r.id) :
    (l.map u).find? (fun r => r.id == id) = (l.find? (fun r => r.id == id)).map u := by
  induction l with
  | nil => rfl
  | cons a t ih =>
      cases hb : (a.id == id) with
      | true =>
          have hb' : ((u a).id == id) = true := by rw [h]; exact hb
          simp [List.find?_cons, hb, hb']
      | false =>
          have hb' : ((u a).id == id) = false := by rw [h]; exact hb
          simp [List.find?_cons, hb, hb', ih]

/-- A row update of the shape `if r.id == id then g r else r` preserves
ids whenever `g` does. -/
theorem upd_pres_id (id : String) (g : TaskRow → TaskRow)
    (hg : ∀ r, (g r).id = r.id) :
    ∀ r : TaskRow, ((if r.id == id then g r else r) : TaskRow).id = r.id := by
  intro r
  by_cases hb : (r.id == id) = true
  · simp [hb, hg]
  · simp [hb]

/-- `any` by id commutes with mapping an id-preserving row update. -/
theorem any_id_map (l : List TaskRow) (id : String) (u : TaskRow → TaskRow)
    (h : ∀ r, (u r).id = r.id) :
    ((l.map u).any fun r => r.id == id) = (l.any fun r => r.id == id) := by
  induction l with
  | nil => rfl
  | cons a t ih => simp [List.any_cons, h, ih]

/-- `find?` skips a prefix on which the predicate is false. -/
theorem find?_append_absent {α : Type} (l l' : List α) (p : α → Bool)
    (h : ∀ r ∈ l, p r = false) : (l ++ l').find? p = l'.find? p := by
  induction l with
  | nil => rfl
  | cons a t ih =>
      rw [List.cons_append, List.find?_cons, h a (by simp)]
      exact ih (fun r hr => h r (by simp [hr]))

/-- The task table after a successful `UpdateJobStatus` is exactly the
UPDATE statement's result, whether or not the history insert went
through. -/
theorem updateJobStatus_tasks (st : Store) (id status output : String) (now : Int)
    (historyOk : Bool) :
    (UpdateJobStatus st id status output now true historyOk).1.tasks
      = sqlUpdateTasksStatus st.tasks id status (nullableString output) now := by
  cases historyOk with
  | false => rfl
  | true =>
      show (insertHistory
        { st with tasks := sqlUpdateTasksStatus st.tasks id status (nullableString output) now }
        (historyRowFor id status output now)).tasks = _
      unfold insertHistory
      split <;> rfl

/-- The WHERE clause of `GetDueTaskIDs`, in propositional form. -/
theorem dueRow_iff (now : Int) (r : TaskRow) :
    dueRow now r = true ↔ r.status = "PENDING"
      ∧ (r.execute_at = none ∨ (∃ t, r.execute_at = some t ∧ t ≤ now)
         ∨ (∃ t, r.next_run_at = some t ∧ t ≤ now)) := by
  unfold dueRow
  cases hx : r.execute_at <;> cases hn : r.next_run_at <;> simp [sqlLeNow, hx, hn]

/-- An id-targeted map over rows that all miss the id is the identity. -/
theorem map_upd_absent (l : List TaskRow) (id : String) (g : TaskRow → TaskRow)
    (habs : ∀ r ∈ l, (r.id == id) = false) :
    l.map (fun r => if r.id == id then g r else r) = l := by
  induction l with
  | nil => rfl
  | cons a t ih =>
      have ha := habs a (by simp)
      rw [List.map_cons, ha]
      simp only [Bool.false_eq_true, if_false]
      rw [ih (fun r hr => habs r (by simp [hr]))]

end Scheduler

namespace Scheduler

/-! ### Claim theorems -/

/-- C2: the claim states the pending list is FIFO — `Push` appends at
the tail, `Pop` removes from the head and appends to the tail of
processing, so of two jobs pushed J1-before-J2 `Pop` returns J1 first.
The code is wrong: `PushJob` RPUSHes at the tail while `PopJob`
BRPOPLPUSHes from the same tail and prepends to the HEAD of
processing, so the list is LIFO.  Concretely, pushing "J1" then "J2"
onto an empty pending list (processing holding "P") and popping
returns "J2", leaving processing = ["J2", "P"]. -/
theorem pushJob_popJob_lifo :
    (popJob (pushJob (pushJob { pending := [], processing := ["P"], dlq := [] } "J1") "J2")).1
      = some "J2"
    ∧ (popJob (pushJob (pushJob { pending := [], processing := ["P"], dlq := [] } "J1") "J2")).2
      = { pending := ["J1"], processing := ["J2", "P"], dlq := [] }
    ∧ ("J2" : String) ≠ "J1" := by
  refine ⟨rfl, rfl, by decide⟩

/-- C1: the claim states a failing execution increments `retries` and
either requeues (while `retries ≤ max_retries`) or writes FAILED and
dead-letters, bounding executions by `max_retries + 1`.  The worker's
`processNextJob` never calls IncrementRetry, ResetToPending,
RequeueFromProcessing or MoveToDLQ: on the very first non-zero exit of
job "j1" (retries 0, max_retries 3) it writes terminal FAILED with the
"Error: … Output: …" text, leaves `retries` at 0, leaves the
dead-letter list empty, and leaves the id parked in processing. -/
theorem worker_failure_writes_failed_without_retry :
    (GetJob (processNextJob (oneJobState (sampleJob "j1" "false"))
        false false "" "exit status 1" 7 true).1.store "j1").map
          (fun r => (r.retries, r.status, r.output))
      = some (0, "FAILED", some "Error: exit status 1\nOutput: ")
    ∧ (processNextJob (oneJobState (sampleJob "j1" "false"))
        false false "" "exit status 1" 7 true).1.queue
      = { pending := [], processing := ["j1"], dlq := [] } := by
  refine ⟨rfl, rfl⟩

/-- C3: the claim states a zero-exit execution writes terminal
SUCCEEDED with the captured output and then Acks the queue entry,
removing the id from processing.  The SUCCEEDED write happens, but
`processNextJob` never calls AckProcessing: after job "j1" (command
"echo hello") exits zero, its row is SUCCEEDED with output "hello\n"
yet the id is still in the processing list. -/
theorem worker_success_leaves_processing :
    (GetJob (processNextJob (oneJobState (sampleJob "j1" "echo hello"))
        false true "hello\n" "" 7 true).1.store "j1").map
          (fun r => (r.status, r.output))
      = some ("SUCCEEDED", some "hello\n")
    ∧ (processNextJob (oneJobState (sampleJob "j1" "echo hello"))
        false true "hello\n" "" 7 true).1.queue
      = { pending := [], processing := ["j1"], dlq := [] } := by
  refine ⟨rfl, rfl⟩

/-- C8 counterexample: the claim states a leader enqueue happens only
when the stored `next_run_at` is at most the current time, and that
successive written `next_run_at` values are strictly increasing.  The
recurring row "c1" of `cronState` (PENDING, `execute_at` NULL, stored
`next_run_at` = 1000) is selected by `GetDueTaskIDs` at time 0 through
the `execute_at IS NULL` disjunct although 1000 > 0; and two leader
ticks at times 1 and 16 — both inside the same cron minute — write the
same `next_run_at` of 60, not a strictly larger one. -/
theorem leader_cron_counterexample :
    ("c1" ∈ GetDueTaskIDs cronState.store 0 100 ∧ ¬ ((1000 : Int) ≤ 0))
    ∧ (GetJob (leaderTick cronState 1).store "c1").map (fun r => r.next_run_at)
        = some (some 60)
    ∧ (GetJob (leaderTick (leaderTick cronState 1) 16).store "c1").map (fun r => r.next_run_at)
        = some (some 60) := by
  exact ⟨⟨by decide, by decide⟩, rfl, rfl⟩

/-- C8 amended: for a row whose `cron_expr` is the every-minute
expression, the leader's per-id enqueue body stores `next_run_at` =
the schedule's next firing strictly after the tick time (here the next
whole minute) and pushes the id; the written value exceeds the tick
time and is monotone — but only non-strictly — in the tick time, and
the enqueue is not gated on the previously stored `next_run_at`. -/
theorem leader_cron_nextRun_amended (s : SysState) (now : Int) (id : String)
    (job : TaskRow) (hget : GetJob s.store id = some job)
    (hcron : job.cron_expr = some "*/1 * * * *") :
    GetJob (leaderProcessId s now id).store id =
      some { job with execute_at := none, next_run_at := some (60 * (now / 60 + 1)),
                      updated_at := now }
    ∧ cronNext "*/1 * * * *" now = some (60 * (now / 60 + 1))
    ∧ now < 60 * (now / 60 + 1)
    ∧ (∀ t1 t2 : Int, t1 ≤ t2 → 60 * (t1 / 60 + 1) ≤ 60 * (t2 / 60 + 1))
    ∧ (leaderProcessId s now id).queue = pushJob s.queue id := by
  have hget' : s.store.tasks.find? (fun r => r.id == id) = some job := hget
  have hid : (job.id == id) = true := by simpa using List.find?_some hget'
  have hideq : job.id = id := by simpa using hid
  have hpres1 : ∀ r : TaskRow,
      ((if r.id == id then { r with execute_at := none, updated_at := now } else r) : TaskRow).id
        = r.id := upd_pres_id id _ (fun _ => rfl)
  have h1 : GetJob (ClearExecuteAt s.store id now) id
      = some { job with execute_at := none, updated_at := now } := by
    simp only [ClearExecuteAt, GetJob]
    rw [find?_id_map _ _ _ hpres1, hget']
    simp [hideq]
  have hnx : cronNext "*/1 * * * *" now = some (60 * (now / 60 + 1)) := rfl
  refine ⟨?_, hnx, by omega, fun t1 t2 h => by omega, rfl⟩
  have hstore : (leaderProcessId s now id).store
      = UpdateNextRun (ClearExecuteAt s.store id now) id (60 * (now / 60 + 1)) now := by
    simp only [leaderProcessId, h1, hcron, hnx]
  rw [hstore]
  have hpres2 : ∀ r : TaskRow,
      ((if r.id == id then { r with next_run_at := some (60 * (now / 60 + 1)), updated_at := now }
        else r) : TaskRow).id = r.id := upd_pres_id id _ (fun _ => rfl)
  simp only [UpdateNextRun, GetJob]
  rw [find?_id_map _ _ _ hpres2]
  have h1' : (ClearExecuteAt s.store id now).tasks.find? (fun r => r.id == id)
      = some { job with execute_at := none, updated_at := now } := h1
  rw [h1']
  simp [hideq]

/-- C5: a submission whose command trims to the empty string is
rejected by `SubmitJob` with the invalid-input error before anything
else happens: the whole system state (store and queue) is returned
unchanged and the response is unsuccessful. -/
theorem submitJob_emptyCommand_rejected (s : SysState) (reqId command genId : String)
    (now : Int) (pushOk historyOk : Bool) (h : trimSpace command = "") :
    SubmitJob s reqId command genId now pushOk historyOk
      = (s, { job_id := "", success := false, message := "Job command cannot be empty" },
         false) := by
  simp [SubmitJob, h]

/-- Witness for C5: submitting the whitespace command "  " against a
one-job state changes nothing. -/
theorem submitJob_emptyCommand_rejected_witness :
    SubmitJob (oneJobState (sampleJob "j1" "echo hi")) "" "  " "g1" 3 true true
      = (oneJobState (sampleJob "j1" "echo hi"),
         { job_id := "", success := false, message := "Job command cannot be empty" },
         false) :=
  submitJob_emptyCommand_rejected _ _ _ _ _ _ _ (by decide)

/-- C9: `UpdateJobStatus` on an id absent from the tasks table returns
success and leaves the store untouched — the UPDATE matches no row yet
reports no error, and the history insert is rejected by the foreign
key with its error discarded; `ResetToPending` on an absent id behaves
the same.  Neither reports a not-found condition. -/
theorem updateJobStatus_absent_id_noop (st : Store) (id : String)
    (habs : ∀ r ∈ st.tasks, (r.id == id) = false)
    (status output : String) (now : Int) (historyOk : Bool) :
    UpdateJobStatus st id status output now true historyOk = (st, true)
    ∧ ResetToPending st id output now = (st, true) := by
  have hmap : sqlUpdateTasksStatus st.tasks id status (nullableString output) now = st.tasks :=
    map_upd_absent _ _ _ habs
  have hany : (st.tasks.any fun r => r.id == id) = false := by
    rw [List.any_eq_false]
    intro r hr
    simp [habs r hr]
  constructor
  · cases historyOk with
    | false =>
        show ({ st with
                  tasks := sqlUpdateTasksStatus st.tasks id status (nullableString output) now },
              true) = (st, true)
        rw [hmap]
    | true =>
        show (insertHistory { st with
            tasks := sqlUpdateTasksStatus st.tasks id status (nullableString output) now }
          (historyRowFor id status output now), true) = (st, true)
        unfold insertHistory
        rw [hmap]
        have h2 : (st.tasks.any fun r => r.id == (historyRowFor id status output now).task_id)
            = false := hany
        rw [h2]
        simp
  · have hmap2 : st.tasks.map (fun r => if r.id == id then
        { r with status := "PENDING", output := nullableString output, updated_at := now }
        else r) = st.tasks := map_upd_absent _ _ _ habs
    simp only [ResetToPending]
    rw [hmap2]

/-- Witness for C9: updating or resetting the absent id "b" in a store
holding only job "a" is a successful no-op. -/
theorem updateJobStatus_absent_id_noop_witness :
    UpdateJobStatus { tasks := [sampleJob "a" "x"], history := [] } "b" "FAILED" "boom" 5 true true
      = ({ tasks := [sampleJob "a" "x"], history := [] }, true)
    ∧ ResetToPending { tasks := [sampleJob "a" "x"], history := [] } "b" "boom" 5
      = ({ tasks := [sampleJob "a" "x"], history := [] }, true) :=
  updateJobStatus_absent_id_noop _ "b" (by decide) "FAILED" "boom" 5 true

/-- C7: a call to `UpdateJobStatus` whose UPDATE reaches a present row
returns no error; the task table holds exactly the UPDATE's result
whether or not the history insert succeeded (the insert's failure is
discarded and undoes nothing); when the insert succeeds exactly one
history row is appended, carrying the id, the status, `start_time =
now` exactly for RUNNING and `end_time = now` exactly for SUCCEEDED or
FAILED, and the output as its result. -/
theorem updateJobStatus_history_spec (st : Store) (id status output : String) (now : Int)
    (historyOk : Bool) (hpres : (st.tasks.any fun r => r.id == id) = true) :
    (UpdateJobStatus st id status output now true historyOk).2 = true
    ∧ (UpdateJobStatus st id status output now true historyOk).1.tasks
        = sqlUpdateTasksStatus st.tasks id status (nullableString output) now
    ∧ (historyOk = true →
        (UpdateJobStatus st id status output now true historyOk).1.history
          = st.history ++ [historyRowFor id status output now])
    ∧ (historyOk = false →
        (UpdateJobStatus st id status output now true historyOk).1.history = st.history)
    ∧ historyRowFor id status output now
        = { task_id := id, status := status,
            start_time := if status == "RUNNING" then some now else none,
            end_time := if status == "SUCCEEDED" || status == "FAILED" then some now else none,
            result := nullableString output } := by
  refine ⟨by cases historyOk <;> rfl, updateJobStatus_tasks st id status output now historyOk,
    ?_, ?_, rfl⟩
  · intro hh
    subst hh
    show (insertHistory
      { st with tasks := sqlUpdateTasksStatus st.tasks id status (nullableString output) now }
      (historyRowFor id status output now)).history = _
    unfold insertHistory
    have hany : ((sqlUpdateTasksStatus st.tasks id status (nullableString output) now).any
        fun r => r.id == (historyRowFor id status output now).task_id) = true := by
      have h := any_id_map st.tasks id
        (fun r => if r.id == id then
          { r with status := status, output := nullableString output, updated_at := now }
          else r)
        (upd_pres_id id _ (fun _ => rfl))
      exact h.trans hpres
    rw [hany]
    simp
  · intro hh
    subst hh
    rfl

/-- Witness for C7 at a concrete one-row store, status SUCCEEDED. -/
theorem updateJobStatus_history_spec_witness :
    (UpdateJobStatus { tasks := [sampleJob "a" "echo hi"], history := [] }
        "a" "SUCCEEDED" "done" 9 true true).2 = true
    ∧ (UpdateJobStatus { tasks := [sampleJob "a" "echo hi"], history := [] }
        "a" "SUCCEEDED" "done" 9 true true).1.history
      = [{ task_id := "a", status := "SUCCEEDED", start_time := none,
           end_time := some 9, result := some "done" }] := by
  have h := updateJobStatus_history_spec { tasks := [sampleJob "a" "echo hi"], history := [] }
    "a" "SUCCEEDED" "done" 9 true (by decide)
  exact ⟨h.1, by rw [h.2.2.1 rfl]; rfl⟩

/-- C10: `UpdateJobStatus` maps the empty output string to NULL, so
the worker's RUNNING transition (which passes an empty output) erases
any previously stored output, and `GetJobStatus` afterwards renders
the NULL as the empty string. -/
theorem updateJobStatus_empty_output_null (st : Store) (jobId : String) (now : Int)
    (historyOk : Bool) (job : TaskRow) (hget : GetJob st jobId = some job)
    (hne : trimSpace jobId ≠ "") :
    nullableString "" = none
    ∧ GetJob (UpdateJobStatus st jobId "RUNNING" "" now true historyOk).1 jobId
        = some { job with status := "RUNNING", output := none, updated_at := now }
    ∧ GetJobStatus (UpdateJobStatus st jobId "RUNNING" "" now true historyOk).1 jobId
        = .ok { id := job.id, status := "RUNNING", output := "",
                created_at := job.created_at, updated_at := now } := by
  have hget' : st.tasks.find? (fun r => r.id == jobId) = some job := hget
  have hideq : job.id = jobId := by simpa using List.find?_some hget'
  have ht := updateJobStatus_tasks st jobId "RUNNING" "" now historyOk
  have hfind : GetJob (UpdateJobStatus st jobId "RUNNING" "" now true historyOk).1 jobId
      = some { job with status := "RUNNING", output := none, updated_at := now } := by
    show (UpdateJobStatus st jobId "RUNNING" "" now true historyOk).1.tasks.find?
      (fun r => r.id == jobId) = _
    rw [ht]
    simp only [sqlUpdateTasksStatus]
    rw [find?_id_map st.tasks jobId
      (fun r => if r.id == jobId then
        { r with status := "RUNNING", output := nullableString "", updated_at := now } else r)
      (upd_pres_id jobId _ (fun _ => rfl)), hget']
    simp [hideq, nullableString]
  refine ⟨rfl, hfind, ?_⟩
  simp only [GetJobStatus]
  rw [if_neg hne, hfind]
  simp

/-- Witness for C10: job "a" with a previously captured output "old"
loses it on the RUNNING transition and reads back as "". -/
theorem updateJobStatus_empty_output_null_witness :
    GetJobStatus (UpdateJobStatus
        { tasks := [{ sampleJob "a" "echo hi" with output := some "old" }], history := [] }
        "a" "RUNNING" "" 9 true true).1 "a"
      = .ok { id := "a", status := "RUNNING", output := "", created_at := 0,
              updated_at := 9 } := by
  have h := updateJobStatus_empty_output_null
    { tasks := [{ sampleJob "a" "echo hi" with output := some "old" }], history := [] }
    "a" 9 true { sampleJob "a" "echo hi" with output := some "old" } rfl (by decide)
  simpa using h.2.2

/-- C4: when the job row is written but the queue push fails,
`SubmitJob` returns an unsuccessful response carrying the job id
together with a Go error, the row stays in the store (not deleted)
with status FAILED and the diagnostic output, and the queue is
unchanged. -/
theorem submitJob_queueFailure_spec (s : SysState) (reqId command genId : String) (now : Int)
    (historyOk : Bool) (hcmd : trimSpace command ≠ "")
    (hfresh : ∀ r ∈ s.store.tasks, (r.id == (if reqId = "" then genId else reqId)) = false) :
    (SubmitJob s reqId command genId now false historyOk).2.1
      = { job_id := if reqId = "" then genId else reqId, success := false,
          message := "Failed to queue job for processing" }
    ∧ (SubmitJob s reqId command genId now false historyOk).2.2 = false
    ∧ GetJob (SubmitJob s reqId command genId now false historyOk).1.store
        (if reqId = "" then genId else reqId)
      = some { id := if reqId = "" then genId else reqId, name := some "shell",
               command := some command, execute_at := none, status := "FAILED",
               retries := 0, priority := 0,
               output := some "Failed to add job to processing queue",
               created_at := now, updated_at := now, max_retries := 3,
               cron_expr := none, next_run_at := none }
    ∧ (SubmitJob s reqId command genId now false historyOk).1.queue = s.queue := by
  have hanyf : (s.store.tasks.any fun r =>
      r.id == (if reqId = "" then genId else reqId)) = false := by
    rw [List.any_eq_false]
    intro r hr
    simp [hfresh r hr]
  have hcreate : CreateJob s.store (if reqId = "" then genId else reqId) command now
      = ({ s.store with tasks := s.store.tasks ++
            [{ id := if reqId = "" then genId else reqId, name := some "shell",
               command := some command, execute_at := none, status := "PENDING",
               retries := 0, priority := 0, output := none, created_at := now,
               updated_at := now, max_retries := 3, cron_expr := none,
               next_run_at := none }] }, true) := by
    unfold CreateJob
    rw [hanyf]
    simp
  have hsub : SubmitJob s reqId command genId now false historyOk
      = ({ store := (UpdateJobStatus
              ({ s.store with tasks := s.store.tasks ++
                 [{ id := if reqId = "" then genId else reqId, name := some "shell",
                    command := some command, execute_at := none, status := "PENDING",
                    retries := 0, priority := 0, output := none, created_at := now,
                    updated_at := now, max_retries := 3, cron_expr := none,
                    next_run_at := none }] })
              (if reqId = "" then genId else reqId) "FAILED"
              "Failed to add job to processing queue" now true historyOk).1,
            queue := s.queue },
         { job_id := if reqId = "" then genId else reqId, success := false,
           message := "Failed to queue job for processing" }, false) := by
    simp only [SubmitJob]
    rw [if_neg hcmd, hcreate]
    rfl
  refine ⟨by rw [hsub], by rw [hsub], ?_, by rw [hsub]⟩
  rw [hsub]
  have ht := updateJobStatus_tasks
    ({ s.store with tasks := s.store.tasks ++
       [{ id := if reqId = "" then genId else reqId, name := some "shell",
          command := some command, execute_at := none, status := "PENDING",
          retries := 0, priority := 0, output := none, created_at := now,
          updated_at := now, max_retries := 3, cron_expr := none,
          next_run_at := none }] })
    (if reqId = "" then genId else reqId) "FAILED"
    "Failed to add job to processing queue" now historyOk
  show (UpdateJobStatus _ _ _ _ _ _ _).1.tasks.find? _ = _
  rw [ht]
  simp only [sqlUpdateTasksStatus]
  rw [find?_id_map _ (if reqId = "" then genId else reqId)
    (fun r => if r.id == (if reqId = "" then genId else reqId) then
      { r with status := "FAILED",
               output := nullableString "Failed to add job to processing queue",
               updated_at := now } else r)
    (upd_pres_id _ _ (fun _ => rfl))]
  rw [find?_append_absent _ _ _ (fun r hr => hfresh r hr)]
  simp [nullableString]

/-- Witness for C4: submitting "echo hi" with generated id "g1" into
an empty system while the queue push fails. -/
theorem submitJob_queueFailure_spec_witness :
    (SubmitJob { store := { tasks := [], history := [] },
                 queue := { pending := [], processing := [], dlq := [] } }
        "" "echo hi" "g1" 4 false true).2.1
      = { job_id := "g1", success := false, message := "Failed to queue job for processing" }
    ∧ GetJob (SubmitJob { store := { tasks := [], history := [] },
                          queue := { pending := [], processing := [], dlq := [] } }
        "" "echo hi" "g1" 4 false true).1.store "g1"
      = some { id := "g1", name := some "shell", command := some "echo hi",
               execute_at := none, status := "FAILED", retries := 0, priority := 0,
               output := some "Failed to add job to processing queue",
               created_at := 4, updated_at := 4, max_retries := 3, cron_expr := none,
               next_run_at := none } := by
  have h := submitJob_queueFailure_spec
    { store := { tasks := [], history := [] },
      queue := { pending := [], processing := [], dlq := [] } }
    "" "echo hi" "g1" 4 true (by decide) (by decide)
  exact ⟨h.1, h.2.2.1⟩

/-- C6: `GetDueTaskIDs` returns at most `limit` ids; every returned id
belongs to a task row that is PENDING and due (`execute_at` NULL, or
`execute_at ≤ now`, or `next_run_at ≤ now`); and the returned ids are
the id projection of the first `limit` rows of the due rows sorted by
`updated_at` ascending. -/
theorem getDueTaskIDs_spec (st : Store) (now : Int) (limit : Nat) :
    (GetDueTaskIDs st now limit).length ≤ limit
    ∧ (∀ i ∈ GetDueTaskIDs st now limit, ∃ r ∈ st.tasks, r.id = i ∧ r.status = "PENDING"
        ∧ (r.execute_at = none ∨ (∃ t, r.execute_at = some t ∧ t ≤ now)
           ∨ (∃ t, r.next_run_at = some t ∧ t ≤ now)))
    ∧ (dueSortedRows st now).Sorted updLE
    ∧ GetDueTaskIDs st now limit = ((dueSortedRows st now).take limit).map (fun r => r.id) := by
  refine ⟨List.length_take_le _ _, ?_, List.sorted_insertionSort updLE _, ?_⟩
  · intro i hi
    have hi' : i ∈ (dueSortedRows st now).map (fun r => r.id) := List.mem_of_mem_take hi
    obtain ⟨r, hr, hid⟩ := List.mem_map.1 hi'
    have hr' : r ∈ st.tasks.filter (dueRow now) :=
      (List.perm_insertionSort updLE _).mem_iff.1 hr
    obtain ⟨hmem1, hdue⟩ := List.mem_filter.1 hr'
    exact ⟨r, hmem1, hid, ((dueRow_iff now r).1 hdue).1, ((dueRow_iff now r).1 hdue).2⟩
  · simp [GetDueTaskIDs, List.map_take]

/-- Witness for the amended C8 theorem at the concrete recurring job
"c1" of `cronState` and tick time 1. -/
theorem leader_cron_nextRun_amended_witness :
    GetJob (leaderProcessId cronState 1 "c1").store "c1" =
      some { sampleCronJob 1000 with
               execute_at := none, next_run_at := some 60, updated_at := 1 } := by
  have h := (leader_cron_nextRun_amended cronState 1 "c1" (sampleCronJob 1000) rfl rfl).1
  simpa using h

end Scheduler
